import Mathlib

/-!
Verification of the ConversationChain construction-time validation logic
from libs/langchain/langchain/chains/conversation/base.py.

The chain holds a memory store, a prompt template, an input key and an
output key.  During construction, pydantic first applies field defaults
(a default ConversationBufferMemory when the memory argument is omitted),
then runs the root validator validate_prompt_input_variables (collision
check, then subset check), and finally the body of the init method checks
that the memory input key is set.  The embedding below follows that
execution order.
-/

/-- A memory store as seen by the chain (the BaseMemory interface): the
variable names it injects into the prompt and the (possibly unset) key
under which new user input is recorded. -/
structure BaseMemory where
  memory_variables : List String
  input_key : Option String
  deriving Repr, DecidableEq

/-- A prompt template as seen by the chain (the BasePromptTemplate
interface): the variable names it expects at render time. -/
structure BasePromptTemplate where
  input_variables : List String
  deriving Repr, DecidableEq

/-- The structured content of the ValueError raised by each failing branch
of construction: the collision branch reports the offending key and the
full memory key list, the mismatch branch reports the expected keys and
the actual prompt variables, and the init-body branch reports the unset
memory input key. -/
inductive ConfigError where
  | inputKeyCollision (key : String) (memoryKeys : List String)
  | promptMemoryMismatch (expectedKeys : List String) (promptVariables : List String)
  | missingMemoryInputKey
  deriving Repr, DecidableEq

/-- The validated chain object: its fields after a successful construction. -/
structure ConversationChain where
  memory : BaseMemory
  prompt : BasePromptTemplate
  input_key : String
  output_key : String
  deriving Repr, DecidableEq

/-- Embedding of the root validator validate_prompt_input_variables: if the
input key is among the memory keys, raise the collision error; otherwise,
if the set of memory keys plus the input key is not a subset of the prompt
variables, raise the mismatch error; otherwise return the values. -/
def validate_prompt_input_variables (memory : BaseMemory)
    (prompt : BasePromptTemplate) (input_key : String) :
    Except ConfigError Unit :=
  let memory_keys := memory.memory_variables
  if input_key ∈ memory_keys then
    .error (.inputKeyCollision input_key memory_keys)
  else
    let prompt_variables := prompt.input_variables
    let expected_keys := memory_keys ++ [input_key]
    if !(expected_keys.all fun x => decide (x ∈ prompt_variables)) then
      .error (.promptMemoryMismatch expected_keys prompt_variables)
    else
      .ok ()

/-- Modelled from the spec: the default memory store produced by the field
default factory (ConversationBufferMemory, whose source lies outside this
fragment).  Per the spec it is an empty-history store declaring the single
memory variable "history"; its input key starts unset, since the init body
of ConversationChain demands that the key be explicitly set when creating
an instance of ConversationBufferMemory. -/
def conversationBufferMemory : BaseMemory :=
  { memory_variables := ["history"], input_key := none }

/-- Embedding of ConversationChain construction.  A memory argument of
none means the caller omitted the field, so the default factory supplies
conversationBufferMemory.  The root validator runs inside the super init
call; only afterwards does the init body check whether the memory input
key is unset. -/
def ConversationChain.construct (memory : Option BaseMemory)
    (prompt : BasePromptTemplate) (input_key : String)
    (output_key : String) : Except ConfigError ConversationChain :=
  let mem := memory.getD conversationBufferMemory
  match validate_prompt_input_variables mem prompt input_key with
  | .error e => .error e
  | .ok () =>
    if mem.input_key = none then
      .error .missingMemoryInputKey
    else
      .ok { memory := mem, prompt := prompt, input_key := input_key,
            output_key := output_key }

/-- Embedding of the input keys property: only the input key is required
from the caller, since the other prompt variables come from history. -/
def ConversationChain.input_keys (c : ConversationChain) : List String :=
  [c.input_key]

/-! ## Characterization lemmas shared by the claim theorems -/

theorem validate_of_collision (mem : BaseMemory) (prompt : BasePromptTemplate)
    (k : String) (h : k ∈ mem.memory_variables) :
    validate_prompt_input_variables mem prompt k =
      .error (.inputKeyCollision k mem.memory_variables) := by
  simp [validate_prompt_input_variables, h]

theorem validate_of_mismatch (mem : BaseMemory) (prompt : BasePromptTemplate)
    (k : String) (hk : k ∉ mem.memory_variables)
    (hsub : ¬ (mem.memory_variables ++ [k]) ⊆ prompt.input_variables) :
    validate_prompt_input_variables mem prompt k =
      .error (.promptMemoryMismatch (mem.memory_variables ++ [k])
        prompt.input_variables) := by
  have hall : ((mem.memory_variables ++ [k]).all
      fun x => decide (x ∈ prompt.input_variables)) = false := by
    rw [Bool.eq_false_iff]
    intro hc
    exact hsub (fun a ha => by
      have := List.all_eq_true.mp hc a ha
      exact of_decide_eq_true this)
  simp [validate_prompt_input_variables, hk, hall]

theorem validate_ok_iff (mem : BaseMemory) (prompt : BasePromptTemplate)
    (k : String) :
    validate_prompt_input_variables mem prompt k = .ok () ↔
      (k ∉ mem.memory_variables ∧
       (mem.memory_variables ++ [k]) ⊆ prompt.input_variables) := by
  unfold validate_prompt_input_variables
  by_cases hk : k ∈ mem.memory_variables
  · simp [hk]
  · by_cases hsub : (mem.memory_variables ++ [k]) ⊆ prompt.input_variables
    · have hall : ((mem.memory_variables ++ [k]).all
          fun x => decide (x ∈ prompt.input_variables)) = true :=
        List.all_eq_true.mpr (fun a ha => decide_eq_true (hsub ha))
      simp [hk, hall, hsub]
    · have hall : ((mem.memory_variables ++ [k]).all
          fun x => decide (x ∈ prompt.input_variables)) = false := by
        rw [Bool.eq_false_iff]
        intro hc
        exact hsub (fun a ha => of_decide_eq_true (List.all_eq_true.mp hc a ha))
      simp [hk, hall, hsub]

theorem validate_error_ne_missing (mem : BaseMemory)
    (prompt : BasePromptTemplate) (k : String) :
    validate_prompt_input_variables mem prompt k ≠
      .error .missingMemoryInputKey := by
  unfold validate_prompt_input_variables
  by_cases hk : k ∈ mem.memory_variables
  · simp [hk]
  · rcases Bool.eq_false_or_eq_true
        ((mem.memory_variables ++ [k]).all
          fun x => decide (x ∈ prompt.input_variables)) with hall | hall <;>
      simp [hk, hall]

theorem construct_of_collision (mem : BaseMemory) (prompt : BasePromptTemplate)
    (k okey : String) (h : k ∈ mem.memory_variables) :
    ConversationChain.construct (some mem) prompt k okey =
      .error (.inputKeyCollision k mem.memory_variables) := by
  simp [ConversationChain.construct, validate_of_collision mem prompt k h]

theorem construct_of_mismatch (mem : BaseMemory) (prompt : BasePromptTemplate)
    (k okey : String) (hk : k ∉ mem.memory_variables)
    (hsub : ¬ (mem.memory_variables ++ [k]) ⊆ prompt.input_variables) :
    ConversationChain.construct (some mem) prompt k okey =
      .error (.promptMemoryMismatch (mem.memory_variables ++ [k])
        prompt.input_variables) := by
  simp [ConversationChain.construct, validate_of_mismatch mem prompt k hk hsub]

theorem construct_ok_iff (mem : BaseMemory) (prompt : BasePromptTemplate)
    (k okey : String) (c : ConversationChain) :
    ConversationChain.construct (some mem) prompt k okey = .ok c ↔
      (k ∉ mem.memory_variables ∧
       (mem.memory_variables ++ [k]) ⊆ prompt.input_variables ∧
       mem.input_key ≠ none ∧
       c = { memory := mem, prompt := prompt, input_key := k,
             output_key := okey }) := by
  unfold ConversationChain.construct
  by_cases hk : k ∈ mem.memory_variables
  · simp [validate_of_collision mem prompt k hk, hk]
  · by_cases hsub : (mem.memory_variables ++ [k]) ⊆ prompt.input_variables
    · have hv : validate_prompt_input_variables mem prompt k = .ok () :=
        (validate_ok_iff mem prompt k).mpr ⟨hk, hsub⟩
      by_cases hmk : mem.input_key = none
      · simp [hv, hk, hsub, hmk]
      · simp only [Option.getD_some, hv]
        simp [hmk, hk, hsub, eq_comm]
    · simp [validate_of_mismatch mem prompt k hk hsub, hk, hsub]

/-- Claim C1: for every memory variable set M and input key k, if k is a
member of M, then construction fails with the InputKeyCollision
configuration error (the ValueError raised by the collision branch),
reporting the offending key and the full memory key list. -/
theorem C1_collision_detection (mem : BaseMemory) (prompt : BasePromptTemplate)
    (k okey : String) (h : k ∈ mem.memory_variables) :
    ConversationChain.construct (some mem) prompt k okey =
      .error (.inputKeyCollision k mem.memory_variables) :=
  construct_of_collision mem prompt k okey h

theorem C1_collision_detection_witness :
    "input" ∈ (BaseMemory.mk ["input"] (some "input")).memory_variables ∧
    ConversationChain.construct (some (BaseMemory.mk ["input"] (some "input")))
        (BasePromptTemplate.mk ["history", "input"]) "input" "response" =
      .error (.inputKeyCollision "input" ["input"]) :=
  ⟨by decide,
   C1_collision_detection (BaseMemory.mk ["input"] (some "input"))
     (BasePromptTemplate.mk ["history", "input"]) "input" "response" (by decide)⟩

/-- Claim C2 counterexample: with M = ["input"], k = "input", P = [] the
union of M and the singleton k is not a subset of P, yet construction does
not fail with the PromptMemoryMismatch error: the collision branch fires
first and reports InputKeyCollision, which is a different error. -/
theorem C2_counterexample :
    ¬ ((["input"] : List String) ++ ["input"]) ⊆ ([] : List String) ∧
    ConversationChain.construct (some (BaseMemory.mk ["input"] (some "input")))
        (BasePromptTemplate.mk []) "input" "response" =
      .error (.inputKeyCollision "input" ["input"]) ∧
    ConfigError.inputKeyCollision "input" ["input"] ≠
      ConfigError.promptMemoryMismatch (["input"] ++ ["input"]) [] :=
  ⟨by decide, rfl, by decide⟩

/-- Claim C2 as amended: for all M, k and P such that k is not itself a
member of M, if the set union of M and the singleton k is not a subset of
the set P, then construction fails with the PromptMemoryMismatch error,
reporting the expected keys (M ++ [k]) and the actual prompt variable
set. -/
theorem C2_subset_enforcement (mem : BaseMemory) (prompt : BasePromptTemplate)
    (k okey : String) (hk : k ∉ mem.memory_variables)
    (hsub : ¬ (mem.memory_variables ++ [k]) ⊆ prompt.input_variables) :
    ConversationChain.construct (some mem) prompt k okey =
      .error (.promptMemoryMismatch (mem.memory_variables ++ [k])
        prompt.input_variables) :=
  construct_of_mismatch mem prompt k okey hk hsub

theorem C2_subset_enforcement_witness :
    ("input" ∉ (BaseMemory.mk ["history"] (some "input")).memory_variables) ∧
    ¬ ((["history"] : List String) ++ ["input"]) ⊆ (["input"] : List String) ∧
    ConversationChain.construct (some (BaseMemory.mk ["history"] (some "input")))
        (BasePromptTemplate.mk ["input"]) "input" "response" =
      .error (.promptMemoryMismatch (["history"] ++ ["input"]) ["input"]) :=
  ⟨by decide, by decide,
   C2_subset_enforcement (BaseMemory.mk ["history"] (some "input"))
     (BasePromptTemplate.mk ["input"]) "input" "response"
     (by decide) (by decide)⟩

theorem construct_resolve (memory : Option BaseMemory)
    (prompt : BasePromptTemplate) (k okey : String) :
    ConversationChain.construct memory prompt k okey =
      ConversationChain.construct
        (some (memory.getD conversationBufferMemory)) prompt k okey := by
  cases memory <;> rfl

/-- Claim C3 counterexample: a memory store whose input key is unset, with
M = ["input"] and k = "input", makes construction fail with the
InputKeyCollision error rather than MissingMemoryInputKey, so the
unset-memory-key check is neither the error always reported nor the check
performed first. -/
theorem C3_counterexample :
    (BaseMemory.mk ["input"] none).input_key = none ∧
    ConversationChain.construct (some (BaseMemory.mk ["input"] none))
        (BasePromptTemplate.mk ["input"]) "input" "response" =
      .error (.inputKeyCollision "input" ["input"]) ∧
    ConfigError.inputKeyCollision "input" ["input"] ≠
      ConfigError.missingMemoryInputKey :=
  ⟨rfl, rfl, by decide⟩

/-- Claim C3 as amended: for every configuration in which the attached
memory input key is unset (none), construction always fails with some
configuration error; the error is MissingMemoryInputKey exactly when the
collision and subset checks have passed, because the unset-memory-key
check is performed last, after the collision and subset checks. -/
theorem C3_unset_memory_key (mem : BaseMemory) (prompt : BasePromptTemplate)
    (k okey : String) (h : mem.input_key = none) :
    (∃ e, ConversationChain.construct (some mem) prompt k okey = .error e) ∧
    (ConversationChain.construct (some mem) prompt k okey =
        .error .missingMemoryInputKey ↔
      validate_prompt_input_variables mem prompt k = .ok ()) ∧
    (∀ e, validate_prompt_input_variables mem prompt k = .error e →
      ConversationChain.construct (some mem) prompt k okey = .error e) := by
  refine ⟨?_, ?_, ?_⟩
  · unfold ConversationChain.construct
    cases hv : validate_prompt_input_variables mem prompt k with
    | error e => exact ⟨e, by simp [hv]⟩
    | ok u => cases u; exact ⟨.missingMemoryInputKey, by simp [hv, h]⟩
  · unfold ConversationChain.construct
    cases hv : validate_prompt_input_variables mem prompt k with
    | error e =>
      have hne : e ≠ .missingMemoryInputKey := by
        intro heq
        exact validate_error_ne_missing mem prompt k (heq ▸ hv)
      simp [hv, hne]
    | ok u =>
      cases u
      simp [hv, h]
  · intro e hv
    simp [ConversationChain.construct, hv]

theorem C3_unset_memory_key_witness :
    (BaseMemory.mk ["history"] none).input_key = none ∧
    ConversationChain.construct (some (BaseMemory.mk ["history"] none))
        (BasePromptTemplate.mk ["history", "input"]) "input" "response" =
      .error .missingMemoryInputKey :=
  ⟨rfl, (C3_unset_memory_key (BaseMemory.mk ["history"] none)
      (BasePromptTemplate.mk ["history", "input"]) "input" "response"
      rfl).2.1.mpr rfl⟩

/-- Claim C4: the collision check precedes the subset check: whenever k is
a member of M, construction fails with InputKeyCollision even when the
subset condition is also violated, and the PromptMemoryMismatch error is
never the one raised in that case. -/
theorem C4_collision_precedes_subset (mem : BaseMemory)
    (prompt : BasePromptTemplate) (k okey : String)
    (hmem : k ∈ mem.memory_variables)
    (hsub : ¬ (mem.memory_variables ++ [k]) ⊆ prompt.input_variables) :
    ConversationChain.construct (some mem) prompt k okey =
      .error (.inputKeyCollision k mem.memory_variables) ∧
    ∀ exp act, ConversationChain.construct (some mem) prompt k okey ≠
      .error (.promptMemoryMismatch exp act) := by
  have h := construct_of_collision mem prompt k okey hmem
  refine ⟨h, fun exp act hc => ?_⟩
  rw [h] at hc
  simp at hc

theorem C4_collision_precedes_subset_witness :
    ConversationChain.construct (some (BaseMemory.mk ["input"] (some "text")))
        (BasePromptTemplate.mk []) "input" "response" =
      .error (.inputKeyCollision "input" ["input"]) ∧
    ConversationChain.construct (some (BaseMemory.mk ["input"] (some "text")))
        (BasePromptTemplate.mk []) "input" "response" ≠
      .error (.promptMemoryMismatch ["input", "input"] []) :=
  ⟨(C4_collision_precedes_subset (BaseMemory.mk ["input"] (some "text"))
      (BasePromptTemplate.mk []) "input" "response"
      (by decide) (by decide)).1,
   (C4_collision_precedes_subset (BaseMemory.mk ["input"] (some "text"))
      (BasePromptTemplate.mk []) "input" "response"
      (by decide) (by decide)).2 ["input", "input"] []⟩

/-- Claim C5: for any successfully constructed chain, the input keys
property returns exactly the single-element sequence holding the input
key — never any memory-derived key — regardless of the size of M or P.
The property is a pure function of the immutable chain value, so every
call on the same chain returns the identical result by definition. -/
theorem C5_required_input_keys (memory : Option BaseMemory)
    (prompt : BasePromptTemplate) (k okey : String) (c : ConversationChain)
    (h : ConversationChain.construct memory prompt k okey = .ok c) :
    c.input_keys = [k] ∧ c.input_keys = [c.input_key] := by
  rw [construct_resolve] at h
  obtain ⟨-, -, -, rfl⟩ := (construct_ok_iff _ _ _ _ _).mp h
  exact ⟨rfl, rfl⟩

theorem C5_required_input_keys_witness :
    ConversationChain.input_keys
        (ConversationChain.mk (BaseMemory.mk ["history"] (some "input"))
          (BasePromptTemplate.mk ["history", "input"]) "input" "response") =
      ["input"] :=
  (C5_required_input_keys (some (BaseMemory.mk ["history"] (some "input")))
     (BasePromptTemplate.mk ["history", "input"]) "input" "response"
     (ConversationChain.mk (BaseMemory.mk ["history"] (some "input"))
       (BasePromptTemplate.mk ["history", "input"]) "input" "response") rfl).1

/-- Claim C6: for every chain whose construction succeeds, invariants I1
and I2 hold of the resulting (immutable) chain value: its input key is not
a member of its memory variable set, and the union of its memory variable
set with the singleton input key is a subset of its prompt variable set. -/
theorem C6_invariants (memory : Option BaseMemory)
    (prompt : BasePromptTemplate) (k okey : String) (c : ConversationChain)
    (h : ConversationChain.construct memory prompt k okey = .ok c) :
    c.input_key ∉ c.memory.memory_variables ∧
    (c.memory.memory_variables ++ [c.input_key]) ⊆ c.prompt.input_variables := by
  rw [construct_resolve] at h
  obtain ⟨h1, h2, -, rfl⟩ := (construct_ok_iff _ _ _ _ _).mp h
  exact ⟨h1, h2⟩

theorem C6_invariants_witness :
    "input" ∉ (["history"] : List String) ∧
    ((["history"] : List String) ++ ["input"]) ⊆
      ["history", "input", "extra"] :=
  C6_invariants (some (BaseMemory.mk ["history"] (some "input")))
    (BasePromptTemplate.mk ["history", "input", "extra"]) "input" "response"
    (ConversationChain.mk (BaseMemory.mk ["history"] (some "input"))
      (BasePromptTemplate.mk ["history", "input", "extra"]) "input" "response")
    rfl

/-- Claim C7: if k is not a member of M, the union of M and the singleton
k is a subset of P, and the memory input key is set, construction succeeds
and the resulting input keys property returns exactly the singleton k; in
particular P may be a strict superset of the expected keys. -/
theorem C7_success_path (mem : BaseMemory) (prompt : BasePromptTemplate)
    (k okey : String) (hset : mem.input_key ≠ none)
    (hk : k ∉ mem.memory_variables)
    (hsub : (mem.memory_variables ++ [k]) ⊆ prompt.input_variables) :
    ∃ c, ConversationChain.construct (some mem) prompt k okey = .ok c ∧
      c.input_keys = [k] :=
  ⟨{ memory := mem, prompt := prompt, input_key := k, output_key := okey },
   (construct_ok_iff mem prompt k okey _).mpr ⟨hk, hsub, hset, rfl⟩, rfl⟩

theorem C7_success_path_witness :
    (∃ c, ConversationChain.construct
        (some (BaseMemory.mk ["history"] (some "input")))
        (BasePromptTemplate.mk ["history", "input", "extra"])
        "input" "response" = .ok c ∧ c.input_keys = ["input"]) ∧
    (∃ c, ConversationChain.construct
        (some (BaseMemory.mk ["history"] (some "input")))
        (BasePromptTemplate.mk ["history", "input"])
        "input" "response" = .ok c ∧ c.input_keys = ["input"]) :=
  ⟨C7_success_path (BaseMemory.mk ["history"] (some "input"))
     (BasePromptTemplate.mk ["history", "input", "extra"]) "input" "response"
     (by decide) (by decide) (by decide),
   C7_success_path (BaseMemory.mk ["history"] (some "input"))
     (BasePromptTemplate.mk ["history", "input"]) "input" "response"
     (by decide) (by decide) (by decide)⟩

/-- Claim C8: the output key never influences validation or the required
input surface: two constructions differing only in the output key fail
with the same error, succeed together, and on success report the same
input keys. -/
theorem C8_output_key_noninterference (memory : Option BaseMemory)
    (prompt : BasePromptTemplate) (k o1 o2 : String) :
    (∀ e, ConversationChain.construct memory prompt k o1 = .error e ↔
      ConversationChain.construct memory prompt k o2 = .error e) ∧
    ((∃ c, ConversationChain.construct memory prompt k o1 = .ok c) ↔
      (∃ c, ConversationChain.construct memory prompt k o2 = .ok c)) ∧
    (∀ c1 c2, ConversationChain.construct memory prompt k o1 = .ok c1 →
      ConversationChain.construct memory prompt k o2 = .ok c2 →
      c1.input_keys = c2.input_keys) := by
  unfold ConversationChain.construct
  cases hv : validate_prompt_input_variables
      (memory.getD conversationBufferMemory) prompt k with
  | error e => simp [hv]
  | ok u =>
    cases u
    by_cases hmk : (memory.getD conversationBufferMemory).input_key = none
    · simp [hv, hmk]
    · simp [hv, hmk, ConversationChain.input_keys]

theorem C8_output_key_noninterference_witness :
    ConversationChain.input_keys
        (ConversationChain.mk (BaseMemory.mk ["history"] (some "input"))
          (BasePromptTemplate.mk ["history", "input"]) "input" "answer") =
      ConversationChain.input_keys
        (ConversationChain.mk (BaseMemory.mk ["history"] (some "input"))
          (BasePromptTemplate.mk ["history", "input"]) "input" "reply") :=
  (C8_output_key_noninterference
     (some (BaseMemory.mk ["history"] (some "input")))
     (BasePromptTemplate.mk ["history", "input"]) "input" "answer" "reply").2.2
    (ConversationChain.mk (BaseMemory.mk ["history"] (some "input"))
      (BasePromptTemplate.mk ["history", "input"]) "input" "answer")
    (ConversationChain.mk (BaseMemory.mk ["history"] (some "input"))
      (BasePromptTemplate.mk ["history", "input"]) "input" "reply")
    rfl rfl

/-- Claim C9: the unset-memory-input-key check runs only after the two
cross-field checks: the MissingMemoryInputKey error is raised exactly when
the memory input key is none and the root validator succeeds, and
whenever the root validator fails its error (collision or mismatch) is
the one construction raises, even if the memory input key is none. -/
theorem C9_unset_check_runs_last (mem : BaseMemory)
    (prompt : BasePromptTemplate) (k okey : String) :
    (ConversationChain.construct (some mem) prompt k okey =
        .error .missingMemoryInputKey ↔
      (mem.input_key = none ∧
       validate_prompt_input_variables mem prompt k = .ok ())) ∧
    (∀ e, validate_prompt_input_variables mem prompt k = .error e →
      ConversationChain.construct (some mem) prompt k okey = .error e) := by
  constructor
  · unfold ConversationChain.construct
    cases hv : validate_prompt_input_variables mem prompt k with
    | error e =>
      have hne : e ≠ .missingMemoryInputKey := by
        intro heq
        exact validate_error_ne_missing mem prompt k (heq ▸ hv)
      simp [hv, hne]
    | ok u =>
      cases u
      by_cases hmk : mem.input_key = none
      · simp [hv, hmk]
      · simp [hv, hmk]
  · intro e hv
    simp [ConversationChain.construct, hv]

theorem C9_unset_check_runs_last_witness :
    ConversationChain.construct (some (BaseMemory.mk ["input"] none))
        (BasePromptTemplate.mk []) "input" "response" =
      .error (.inputKeyCollision "input" ["input"]) :=
  (C9_unset_check_runs_last (BaseMemory.mk ["input"] none)
     (BasePromptTemplate.mk []) "input" "response").2
    (.inputKeyCollision "input" ["input"]) rfl

/-- Claim C10: a memory store is always attached: construction with the
memory argument omitted behaves exactly like construction with the
default ConversationBufferMemory instance supplied by the field default
factory, and that default store declares the nonempty memory variable set
["history"], so validation always reads memory variables from an actual
store. -/
theorem C10_default_memory (prompt : BasePromptTemplate) (k okey : String) :
    ConversationChain.construct none prompt k okey =
      ConversationChain.construct (some conversationBufferMemory)
        prompt k okey ∧
    conversationBufferMemory.memory_variables = ["history"] ∧
    conversationBufferMemory.memory_variables ≠ [] :=
  ⟨construct_resolve none prompt k okey, rfl, by decide⟩
